import Mathlib

/-!
Verification model of `src/devices/XsensSuit/src/XsensSuit.cpp` from the
`wearables` repository.

The file under review is an adapter: it exposes the Xsens MVN vendor driver
(`XSensMVNDriver`, external to the translation unit) through the wearable
multi-sensor interface.  The embedding below translates the adapter's own code
faithfully; the vendor driver is modelled as an oracle of observable behaviour
(label lists, data samples, status, and the boolean results of its control
calls), since its implementation is not part of the source under review.

Numeric sensor payloads are `double` in C++; they are only ever copied, never
computed with, so they are modelled as integers.  A C++ call that throws
(`std::map::at` on a missing key, `std::vector::at` out of range) or
dereferences a null driver pointer is modelled as returning `none`.
-/

set_option autoImplicit false

namespace XsensSuit

/-- Three-component vector (C++ `wearable::Vector3` of doubles, modelled over `Int`
since the adapter only copies the values). -/
abbrev Vector3 := Int × Int × Int

/-- Quaternion (C++ `wearable::Quaternion`, modelled over `Int` as only copied). -/
abbrev Quaternion := Int × Int × Int × Int

/-- Modelled from the spec: the wearable sensor status enumeration
(`wearable::sensor::SensorStatus`, declared in the interface headers that are
not under `src/`).  Only the values the adapter uses are listed. -/
inductive SensorStatus where
  | Error
  | Ok
  | Calibrating
  | Unknown
  | WaitingForFirstRead
  deriving DecidableEq

/-- Modelled from the spec: the vendor driver status enumeration
(`xsensmvn::DriverStatus`, declared outside the source under review); the seven
values are those enumerated by `driverToSensorStatusMap` in the source. -/
inductive DriverStatus where
  | Disconnected
  | Unknown
  | Recording
  | Calibrating
  | CalibratedAndReadyToRecord
  | Connected
  | Scanning
  deriving DecidableEq

/-- Modelled from the spec: the vendor calibration-quality enumeration
(`xsensmvn::CalibrationQuality`); values as named by the `calibrationQualities`
map in the source. -/
inductive CalibrationQuality where
  | UNKNOWN
  | GOOD
  | ACCEPTABLE
  | POOR
  | FAILED
  deriving DecidableEq

/-- One entry of the vendor driver's sensor data array
(`getSensorDataSample().data`): the fields the adapter reads. -/
structure SensorDataSample where
  name : String
  orientation : Quaternion
  position : Vector3
  freeBodyAcceleration : Vector3
  magneticField : Vector3
  deriving DecidableEq

/-- One entry of the vendor driver's link data array (`getLinkDataSample().data`). -/
structure LinkDataSample where
  name : String
  position : Vector3
  orientation : Quaternion
  linearVelocity : Vector3
  angularVelocity : Vector3
  linearAcceleration : Vector3
  angularAcceleration : Vector3
  deriving DecidableEq

/-- One entry of the vendor driver's joint data array (`getJointDataSample().data`). -/
structure JointDataSample where
  name : String
  angles : Vector3
  velocities : Vector3
  accelerations : Vector3
  deriving DecidableEq

/-- Timestamps reported by the vendor driver (`getTimeStamps()`); the adapter
only reads `systemTime` (a C++ double, modelled as `Int`). -/
structure DriverTimeStamps where
  systemTime : Int
  deriving DecidableEq

/-- `xsensmvn::DriverDataStreamConfig` as filled by `XsensSuit::open`. -/
structure DriverDataStreamConfig where
  enableJointData : Bool
  enableLinkData : Bool
  enableSensorData : Bool
  deriving DecidableEq

/-- `xsensmvn::DriverConfiguration` as aggregated by `XsensSuit::open`
(lines 659-666 of the source). -/
structure DriverConfiguration where
  rundepsFolder : String
  suitConfiguration : String
  acquisitionScenario : String
  defaultCalibrationType : String
  minCalibrationQualityRequired : CalibrationQuality
  scanTimeout : Int
  subjectBodyDimensions : List (String × Int)
  outputStreamConfig : DriverDataStreamConfig
  deriving DecidableEq

/-- Modelled from the spec: observable behaviour of the external vendor driver
object.  The driver is delegated to for calibration, acquisition, scanning and
stream decoding; the adapter only sees label lists, data samples, a status, a
timestamp, and boolean results of control calls, so those observations form
the oracle. -/
structure DriverBehaviour where
  configureAndConnectResult : Bool
  suitSensorLabels : List String
  suitLinkLabels : List String
  suitJointLabels : List String
  status : DriverStatus
  timeStamps : DriverTimeStamps
  sensorDataSample : List SensorDataSample
  linkDataSample : List LinkDataSample
  jointDataSample : List JointDataSample
  setBodyDimensionsResult : Bool
  getBodyDimensionsResult : Bool
  getBodyDimensionResult : Bool
  calibrateResult : Bool
  abortCalibrationResult : Bool
  startAcquisitionResult : Bool
  stopAcquisitionResult : Bool
  deriving DecidableEq

/-- The vendor driver object: the configuration handed to its constructor by
`XsensSuit::open`, plus its oracle behaviour. -/
structure XSensMVNDriver where
  config : DriverConfiguration
  behaviour : DriverBehaviour
  deriving DecidableEq

/-- A device-side sensor object: the `m_name` / `m_status` pair held by every
`XsensSuit::impl::Xsens*Sensor` (inherited from the wearable sensor interface,
mutated only through `setStatus`). -/
structure XsensSensor where
  m_name : String
  m_status : SensorStatus
  deriving DecidableEq

/-- `XsensSuit::impl::driverToDeviceSensors<T>`: a sensor object together with
the driver array index stored for it. -/
structure DriverToDeviceSensors where
  xsSensor : XsensSensor
  driverIndex : Nat
  deriving DecidableEq

/-- A name-to-sensor table (`std::map<std::string, driverToDeviceSensors<T>>`),
modelled as an association list with unique keys; `mapAt` returns the first
binding of a key. -/
abbrev SensorTable := List (String × DriverToDeviceSensors)

/-- `std::map::at` / `find`-style lookup on an association list. -/
def mapAt {κ α : Type} [DecidableEq κ] (key : κ) : List (κ × α) → Option α
  | [] => none
  | (k, v) :: rest => if k = key then some v else mapAt key rest

/-- `std::map::emplace`: inserts the binding only when the key is not present. -/
def emplace {κ α : Type} [DecidableEq κ] (m : List (κ × α)) (key : κ) (v : α) :
    List (κ × α) :=
  if (mapAt key m).isSome then m else m ++ [(key, v)]

/-- The state behind `XsensSuit::pImpl`: the (possibly null) vendor driver and
the seven name-to-index sensor tables. -/
structure Impl where
  driver : Option XSensMVNDriver
  freeBodyAccerlerationSensorsMap : SensorTable
  positionSensorsMap : SensorTable
  orientationSensorsMap : SensorTable
  poseSensorsMap : SensorTable
  magnetometersMap : SensorTable
  virtualLinkKinSensorsMap : SensorTable
  virtualJointKinSensorsMap : SensorTable
  deriving DecidableEq

/-- The freshly constructed device (`XsensSuit::XsensSuit()`): null driver,
empty tables. -/
def emptyImpl : Impl := ⟨none, [], [], [], [], [], [], []⟩

/-- `impl::calibrationQualities` (source lines 39-44). -/
def calibrationQualities : List (String × CalibrationQuality) :=
  [("Unknown", CalibrationQuality.UNKNOWN),
   ("Good", CalibrationQuality.GOOD),
   ("Acceptable", CalibrationQuality.ACCEPTABLE),
   ("Poor", CalibrationQuality.POOR),
   ("Failed", CalibrationQuality.FAILED)]

/-- `impl::allowedBodyDimensions` (source lines 46-54). -/
def allowedBodyDimensions : List String :=
  ["ankleHeight", "armSpan", "bodyHeight", "footSize", "hipHeight",
   "hipWidth", "kneeHeight", "shoulderWidth", "shoeSoleHeight"]

/-- `impl::driverToSensorStatusMap` (source lines 56-63). -/
def driverToSensorStatusMap : List (DriverStatus × SensorStatus) :=
  [(DriverStatus.Disconnected, SensorStatus.Error),
   (DriverStatus.Unknown, SensorStatus.Unknown),
   (DriverStatus.Recording, SensorStatus.Ok),
   (DriverStatus.Calibrating, SensorStatus.Calibrating),
   (DriverStatus.CalibratedAndReadyToRecord, SensorStatus.Error),
   (DriverStatus.Connected, SensorStatus.Error),
   (DriverStatus.Scanning, SensorStatus.Error)]

/-- The `output-stream-configuration` group of the configuration, with each of
the three keys optional (a key absent from the group falls back to the
`check` default in the source). -/
structure StreamGroup where
  enableJointData : Option Bool
  enableLinkData : Option Bool
  enableSensorData : Option Bool
  deriving DecidableEq

/-- The `yarp::os::Searchable` configuration handed to `XsensSuit::open`:
each key read by `open` is either absent (`none`) or has a value.  Numeric
values are modelled as `Int`. -/
structure Searchable where
  xsensRundepsDir : Option String
  suitConfig : Option String
  acquisitionScenario : Option String
  defaultCalibrationType : Option String
  minimumCalibrationQualityRequired : Option String
  scanTimeout : Option Int
  bodyDimensions : Option (List (String × Int))
  outputStreamConfiguration : Option StreamGroup
  deriving DecidableEq

/-- The configuration-reading part of `XsensSuit::open` (source lines
553-666): returns `none` when a required key is missing (the early `return
false` paths), otherwise the `DriverConfiguration` handed to the vendor driver
constructor.  Note the faithful translation of lines 583-590: when
`default-calibration-type` is present, the source assigns the value read from
it into the local variable `acquisitionScenario`, while
`defaultCalibrationType` keeps its initial empty value. -/
def buildDriverConfiguration (config : Searchable) : Option DriverConfiguration :=
  match config.xsensRundepsDir with
  | none => none
  | some rundepsFolder =>
  match config.suitConfig with
  | none => none
  | some suitConfiguration =>
  let acquisitionScenario : String :=
    match config.acquisitionScenario with
    | none => ""
    | some v => v
  let defaultCalibrationType : String := ""
  let acquisitionScenario : String :=
    match config.defaultCalibrationType with
    | none => acquisitionScenario
    | some v => v
  let minCalibrationQualityRequired : CalibrationQuality :=
    match config.minimumCalibrationQualityRequired with
    | none => (mapAt "Poor" calibrationQualities).getD CalibrationQuality.POOR
    | some tmpLabel =>
      match mapAt tmpLabel calibrationQualities with
      | some q => q
      | none => (mapAt "Poor" calibrationQualities).getD CalibrationQuality.POOR
  let scanTimeout : Int :=
    match config.scanTimeout with
    | none => -1
    | some v => v
  let bodyDimensionSet : List (String × Int) := config.bodyDimensions.getD []
  let subjectBodyDimensions : List (String × Int) :=
    allowedBodyDimensions.filterMap (fun abd =>
      let tmpDim : Int := (mapAt abd bodyDimensionSet).getD (-1)
      if tmpDim ≠ -1 then some (abd, tmpDim) else none)
  let streamGroup : StreamGroup := config.outputStreamConfiguration.getD ⟨none, none, none⟩
  let outputStreamConfig : DriverDataStreamConfig :=
    { enableJointData := streamGroup.enableJointData.getD false
      enableLinkData := streamGroup.enableLinkData.getD true
      enableSensorData := streamGroup.enableSensorData.getD true }
  some { rundepsFolder := rundepsFolder
         suitConfiguration := suitConfiguration
         acquisitionScenario := acquisitionScenario
         defaultCalibrationType := defaultCalibrationType
         minCalibrationQualityRequired := minCalibrationQualityRequired
         scanTimeout := scanTimeout
         subjectBodyDimensions := subjectBodyDimensions
         outputStreamConfig := outputStreamConfig }

/-- `XsensSuit::getWearableName` (source lines 867-870). -/
def wearableName : String := "XsensSuit_"

/-- Modelled from the spec: the per-taxonomy sensor-name markers returned by
the static interface calls in the interface headers (not under `src/`); each
of the seven sensor taxonomies contributes its own distinct marker, which
`open` appends to the wearable name to build the key of every table entry. -/
def fbasPfx : String := wearableName ++ "fbAcc::"

/-- Modelled from the spec: position-sensor marker, see `fbasPfx`. -/
def posPfx : String := wearableName ++ "pos::"

/-- Modelled from the spec: orientation-sensor marker, see `fbasPfx`. -/
def orientPfx : String := wearableName ++ "orient::"

/-- Modelled from the spec: pose-sensor marker, see `fbasPfx`. -/
def posePfx : String := wearableName ++ "pose::"

/-- Modelled from the spec: magnetometer marker, see `fbasPfx`. -/
def magPfx : String := wearableName ++ "mag::"

/-- Modelled from the spec: virtual-link-kinematics marker, see `fbasPfx`. -/
def vlksPfx : String := wearableName ++ "vLink::"

/-- Modelled from the spec: virtual-joint-kinematics marker, see `fbasPfx`. -/
def vjksPfx : String := wearableName ++ "vSJoint::"

/-- One table-population loop of `XsensSuit::open` (e.g. source lines
685-713): for `s` ranging over the label list, `emplace` the key `pfx ++
label` with a sensor object named like the key (status defaulted to
`Unknown` by the sensor constructors) and driver index `s`. -/
def addSensorsFrom (pfx : String) : Nat → List String → SensorTable → SensorTable
  | _, [], m => m
  | s, label :: rest, m =>
    addSensorsFrom pfx (s + 1) rest
      (emplace m (pfx ++ label) ⟨⟨pfx ++ label, SensorStatus.Unknown⟩, s⟩)

/-- Table population starting from index 0. -/
def addSensors (pfx : String) (labels : List String) (m : SensorTable) : SensorTable :=
  addSensorsFrom pfx 0 labels m

/-- `XsensSuit::open` (source lines 553-736) on a freshly constructed device:
read the configuration (early `return false` on missing required keys, with
the driver still null), construct the vendor driver, fail if
`configureAndConnect` fails (driver already set), then populate the seven
tables from the driver's label lists.  The source fills the five
sensor-derived tables inside one loop over the sensor labels; since the
tables are disjoint this equals populating each table by its own loop. -/
def openSuit (config : Searchable) (behaviour : DriverBehaviour) : Bool × Impl :=
  match buildDriverConfiguration config with
  | none => (false, emptyImpl)
  | some driverConfig =>
    let driver : XSensMVNDriver := ⟨driverConfig, behaviour⟩
    let s : Impl := { emptyImpl with driver := some driver }
    if !behaviour.configureAndConnectResult then (false, s)
    else
      (true,
        { s with
          freeBodyAccerlerationSensorsMap := addSensors fbasPfx behaviour.suitSensorLabels []
          positionSensorsMap := addSensors posPfx behaviour.suitSensorLabels []
          orientationSensorsMap := addSensors orientPfx behaviour.suitSensorLabels []
          poseSensorsMap := addSensors posePfx behaviour.suitSensorLabels []
          magnetometersMap := addSensors magPfx behaviour.suitSensorLabels []
          virtualLinkKinSensorsMap := addSensors vlksPfx behaviour.suitLinkLabels []
          virtualJointKinSensorsMap := addSensors vjksPfx behaviour.suitJointLabels [] })

/-- `Xsens*Sensor::setStatus`: replace the sensor's status. -/
def XsensSensor.setStatus (sensor : XsensSensor) (aStatus : SensorStatus) : XsensSensor :=
  { sensor with m_status := aStatus }

/-- Status update of one table entry (the `xsSensor->setStatus(aStatus)` call
made through the shared pointer held by the entry). -/
def setEntryStatus (aStatus : SensorStatus) (e : DriverToDeviceSensors) :
    DriverToDeviceSensors :=
  { e with xsSensor := e.xsSensor.setStatus aStatus }

/-- One loop of `impl::setAllSensorStates`: set the status of every sensor
stored in a table. -/
def setTableStates (aStatus : SensorStatus) (t : SensorTable) : SensorTable :=
  t.map (fun kv => (kv.1, setEntryStatus aStatus kv.2))

/-- `impl::setAllSensorStates` (source lines 516-539): set the status of every
sensor in all seven tables. -/
def setAllSensorStates (s : Impl) (aStatus : SensorStatus) : Impl :=
  { s with
    freeBodyAccerlerationSensorsMap := setTableStates aStatus s.freeBodyAccerlerationSensorsMap
    positionSensorsMap := setTableStates aStatus s.positionSensorsMap
    orientationSensorsMap := setTableStates aStatus s.orientationSensorsMap
    poseSensorsMap := setTableStates aStatus s.poseSensorsMap
    magnetometersMap := setTableStates aStatus s.magnetometersMap
    virtualLinkKinSensorsMap := setTableStates aStatus s.virtualLinkKinSensorsMap
    virtualJointKinSensorsMap := setTableStates aStatus s.virtualJointKinSensorsMap }

/-- `XsensSuit::setBodyDimensions` (source lines 756-763): false when the
driver is null, otherwise the vendor driver's boolean result.  The
`dimensions` argument is forwarded to the external driver unchanged. -/
def setBodyDimensions (s : Impl) (dimensions : List (String × Int)) : Bool :=
  match s.driver with
  | none => false
  | some d =>
    let _ := dimensions
    d.behaviour.setBodyDimensionsResult

/-- `XsensSuit::getBodyDimensions` (source lines 765-772): false when the
driver is null, otherwise the vendor driver's boolean result (the output map
is filled by the external driver). -/
def getBodyDimensions (s : Impl) : Bool :=
  match s.driver with
  | none => false
  | some d => d.behaviour.getBodyDimensionsResult

/-- `XsensSuit::getBodyDimension` (source lines 774-781): false when the
driver is null, otherwise the vendor driver's boolean result. -/
def getBodyDimension (s : Impl) (bodyName : String) : Bool :=
  match s.driver with
  | none => false
  | some d =>
    let _ := bodyName
    d.behaviour.getBodyDimensionResult

/-- `XsensSuit::calibrate` (source lines 784-803): false when the driver is
null; otherwise set every sensor to `Calibrating`, delegate to the driver, and
set every sensor to `WaitingForFirstRead` on success or `Error` on failure,
returning the driver's result. -/
def calibrate (s : Impl) : Bool × Impl :=
  match s.driver with
  | none => (false, s)
  | some d =>
    let s1 := setAllSensorStates s SensorStatus.Calibrating
    let calibrationSuccess := d.behaviour.calibrateResult
    if calibrationSuccess then
      (calibrationSuccess, setAllSensorStates s1 SensorStatus.WaitingForFirstRead)
    else
      (calibrationSuccess, setAllSensorStates s1 SensorStatus.Error)

/-- `XsensSuit::abortCalibration` (source lines 805-821): false when the
driver is null; on driver success set every sensor to `Unknown`, on failure to
`Error`, returning the driver's result. -/
def abortCalibration (s : Impl) : Bool × Impl :=
  match s.driver with
  | none => (false, s)
  | some d =>
    let abortCalibrationSuccess := d.behaviour.abortCalibrationResult
    if abortCalibrationSuccess then
      (abortCalibrationSuccess, setAllSensorStates s SensorStatus.Unknown)
    else
      (abortCalibrationSuccess, setAllSensorStates s SensorStatus.Error)

/-- `XsensSuit::startAcquisition` (source lines 824-840): false when the
driver is null; on driver success set every sensor to `Ok`, on failure to
`WaitingForFirstRead`, returning the driver's result. -/
def startAcquisition (s : Impl) : Bool × Impl :=
  match s.driver with
  | none => (false, s)
  | some d =>
    let startAcquisitionSuccess := d.behaviour.startAcquisitionResult
    if startAcquisitionSuccess then
      (startAcquisitionSuccess, setAllSensorStates s SensorStatus.Ok)
    else
      (startAcquisitionSuccess, setAllSensorStates s SensorStatus.WaitingForFirstRead)

/-- `XsensSuit::stopAcquisition` (source lines 842-857): false when the driver
is null; on driver success set every sensor to `WaitingForFirstRead`, on
failure to `Ok`, returning the driver's result. -/
def stopAcquisition (s : Impl) : Bool × Impl :=
  match s.driver with
  | none => (false, s)
  | some d =>
    let stopAcquisitionSuccess := d.behaviour.stopAcquisitionResult
    if stopAcquisitionSuccess then
      (stopAcquisitionSuccess, setAllSensorStates s SensorStatus.WaitingForFirstRead)
    else
      (stopAcquisitionSuccess, setAllSensorStates s SensorStatus.Ok)

/-- `XsensSuit::getStatus` (source lines 872-875): map the driver status
through `driverToSensorStatusMap` (`none` models the null-driver
dereference). -/
def getStatus (s : Impl) : Option SensorStatus :=
  match s.driver with
  | none => none
  | some d => mapAt d.behaviour.status driverToSensorStatusMap

/-- Modelled from the spec: `yarp::os::Stamp`, a counter plus a time value,
constructed as `Stamp(count, time)`; the time is a C++ double modelled as
`Int`. -/
structure Stamp where
  count : Int
  time : Int
  deriving DecidableEq

/-- Modelled from the spec: `wearable::TimeStamp`, a time value plus a
sequence number, aggregate-initialised as `{time, sequenceNumber}`. -/
structure TimeStamp where
  time : Int
  sequenceNumber : Nat
  deriving DecidableEq

/-- `XsensSuit::getLastInputStamp` (source lines 746-750): `Stamp(0,
driver->getTimeStamps().systemTime)`. -/
def getLastInputStamp (s : Impl) : Option Stamp :=
  match s.driver with
  | none => none
  | some d => some ⟨0, d.behaviour.timeStamps.systemTime⟩

/-- `XsensSuit::getTimeStamp` (source lines 877-881):
`{driver->getTimeStamps().systemTime, 0}`. -/
def getTimeStamp (s : Impl) : Option TimeStamp :=
  match s.driver with
  | none => none
  | some d => some ⟨d.behaviour.timeStamps.systemTime, 0⟩

/-- `XsensFreeBodyAccelerationSensor::getFreeBodyAcceleration` (source lines
112-128) for the sensor object named `m_name`: look this name up in the
free-body-acceleration table, fetch the driver sensor sample at the stored
index, and on a name match copy `freeBodyAcceleration` into the output
argument and return true; on mismatch return false leaving the output
untouched.  The result pairs the boolean return with the caller's
by-reference argument after the call; `none` models a thrown lookup or a null
driver dereference. -/
def getFreeBodyAcceleration (s : Impl) (m_name : String) (fba : Vector3) :
    Option (Bool × Vector3) :=
  match s.driver with
  | none => none
  | some d =>
    match mapAt m_name s.freeBodyAccerlerationSensorsMap with
    | none => none
    | some entry =>
      match d.behaviour.sensorDataSample[entry.driverIndex]? with
      | none => none
      | some sensorData =>
        if m_name ≠ sensorData.name then some (false, fba)
        else some (true, sensorData.freeBodyAcceleration)

/-- `XsensPositionSensor::getPosition` (source lines 164-180): as
`getFreeBodyAcceleration`, over the position table, copying `position`. -/
def getPosition (s : Impl) (m_name : String) (pos : Vector3) :
    Option (Bool × Vector3) :=
  match s.driver with
  | none => none
  | some d =>
    match mapAt m_name s.positionSensorsMap with
    | none => none
    | some entry =>
      match d.behaviour.sensorDataSample[entry.driverIndex]? with
      | none => none
      | some sensorData =>
        if m_name ≠ sensorData.name then some (false, pos)
        else some (true, sensorData.position)

/-- `XsensOrientationSensor::getOrientationAsQuaternion` (source lines
213-229): over the orientation table, copying `orientation`. -/
def getOrientationAsQuaternion (s : Impl) (m_name : String) (quat : Quaternion) :
    Option (Bool × Quaternion) :=
  match s.driver with
  | none => none
  | some d =>
    match mapAt m_name s.orientationSensorsMap with
    | none => none
    | some entry =>
      match d.behaviour.sensorDataSample[entry.driverIndex]? with
      | none => none
      | some sensorData =>
        if m_name ≠ sensorData.name then some (false, quat)
        else some (true, sensorData.orientation)

/-- `XsensPoseSensor::getPose` (source lines 262-279).  Faithful to the
source: the index lookup on line 265-266 consults `orientationSensorsMap`,
not `poseSensorsMap`, with the pose sensor's own `m_name` as key. -/
def getPose (s : Impl) (m_name : String) (orientation : Quaternion)
    (position : Vector3) : Option (Bool × Quaternion × Vector3) :=
  match s.driver with
  | none => none
  | some d =>
    match mapAt m_name s.orientationSensorsMap with
    | none => none
    | some entry =>
      match d.behaviour.sensorDataSample[entry.driverIndex]? with
      | none => none
      | some sensorData =>
        if m_name ≠ sensorData.name then some (false, orientation, position)
        else some (true, sensorData.orientation, sensorData.position)

/-- `XsensMagnetometer::getMagneticField` (source lines 312-328): over the
magnetometer table, copying `magneticField`. -/
def getMagneticField (s : Impl) (m_name : String) (mf : Vector3) :
    Option (Bool × Vector3) :=
  match s.driver with
  | none => none
  | some d =>
    match mapAt m_name s.magnetometersMap with
    | none => none
    | some entry =>
      match d.behaviour.sensorDataSample[entry.driverIndex]? with
      | none => none
      | some sensorData =>
        if m_name ≠ sensorData.name then some (false, mf)
        else some (true, sensorData.magneticField)

/-- `XsensVirtualLinkKinSensor::getLinkAcceleration` (source lines 361-378):
over the virtual-link table and the driver link sample, copying
`linearAcceleration` and `angularAcceleration`. -/
def getLinkAcceleration (s : Impl) (m_name : String) (linear angular : Vector3) :
    Option (Bool × Vector3 × Vector3) :=
  match s.driver with
  | none => none
  | some d =>
    match mapAt m_name s.virtualLinkKinSensorsMap with
    | none => none
    | some entry =>
      match d.behaviour.linkDataSample[entry.driverIndex]? with
      | none => none
      | some linkData =>
        if m_name ≠ linkData.name then some (false, linear, angular)
        else some (true, linkData.linearAcceleration, linkData.angularAcceleration)

/-- `XsensVirtualLinkKinSensor::getLinkPose` (source lines 380-397): copies
`position` and `orientation` of the link sample. -/
def getLinkPose (s : Impl) (m_name : String) (position : Vector3)
    (orientation : Quaternion) : Option (Bool × Vector3 × Quaternion) :=
  match s.driver with
  | none => none
  | some d =>
    match mapAt m_name s.virtualLinkKinSensorsMap with
    | none => none
    | some entry =>
      match d.behaviour.linkDataSample[entry.driverIndex]? with
      | none => none
      | some linkData =>
        if m_name ≠ linkData.name then some (false, position, orientation)
        else some (true, linkData.position, linkData.orientation)

/-- `XsensVirtualLinkKinSensor::getLinkVelocity` (source lines 399-416):
copies `linearVelocity` and `angularVelocity` of the link sample. -/
def getLinkVelocity (s : Impl) (m_name : String) (linear angular : Vector3) :
    Option (Bool × Vector3 × Vector3) :=
  match s.driver with
  | none => none
  | some d =>
    match mapAt m_name s.virtualLinkKinSensorsMap with
    | none => none
    | some entry =>
      match d.behaviour.linkDataSample[entry.driverIndex]? with
      | none => none
      | some linkData =>
        if m_name ≠ linkData.name then some (false, linear, angular)
        else some (true, linkData.linearVelocity, linkData.angularVelocity)

/-- Result of one of the three joint-kinematics accessors, whose `Vector3`
parameter is declared BY VALUE in the source (lines 450, 468, 486): `ret` is
the boolean return, `callerArg` is the caller's variable after the call, and
`calleeLocal` is the callee's by-value copy after the assignment inside the
accessor body. -/
structure ByValueCallResult where
  ret : Bool
  callerArg : Vector3
  calleeLocal : Vector3
  deriving DecidableEq

/-- `XsensVirtualSphericalJointKinSensor::getJointAnglesAsRPY` (source lines
450-466): the `Vector3 angleAsRPY` parameter is taken by value, so the
assignment `angleAsRPY = jointData.angles` writes the callee's local copy
and the caller's variable is never modified. -/
def getJointAnglesAsRPY (s : Impl) (m_name : String) (angleAsRPY : Vector3) :
    Option ByValueCallResult :=
  match s.driver with
  | none => none
  | some d =>
    match mapAt m_name s.virtualJointKinSensorsMap with
    | none => none
    | some entry =>
      match d.behaviour.jointDataSample[entry.driverIndex]? with
      | none => none
      | some jointData =>
        if m_name ≠ jointData.name then some ⟨false, angleAsRPY, angleAsRPY⟩
        else some ⟨true, angleAsRPY, jointData.angles⟩

/-- `XsensVirtualSphericalJointKinSensor::getJointVelocities` (source lines
468-484): by-value parameter, see `getJointAnglesAsRPY`. -/
def getJointVelocities (s : Impl) (m_name : String) (velocities : Vector3) :
    Option ByValueCallResult :=
  match s.driver with
  | none => none
  | some d =>
    match mapAt m_name s.virtualJointKinSensorsMap with
    | none => none
    | some entry =>
      match d.behaviour.jointDataSample[entry.driverIndex]? with
      | none => none
      | some jointData =>
        if m_name ≠ jointData.name then some ⟨false, velocities, velocities⟩
        else some ⟨true, velocities, jointData.velocities⟩

/-- `XsensVirtualSphericalJointKinSensor::getJointAccelerations` (source lines
486-502): by-value parameter, see `getJointAnglesAsRPY`. -/
def getJointAccelerations (s : Impl) (m_name : String) (accelerations : Vector3) :
    Option ByValueCallResult :=
  match s.driver with
  | none => none
  | some d =>
    match mapAt m_name s.virtualJointKinSensorsMap with
    | none => none
    | some entry =>
      match d.behaviour.jointDataSample[entry.driverIndex]? with
      | none => none
      | some jointData =>
        if m_name ≠ jointData.name then some ⟨false, accelerations, accelerations⟩
        else some ⟨true, accelerations, jointData.accelerations⟩

/-- The seven sensor tables of a device state, in source declaration order. -/
def tablesOf (s : Impl) : List SensorTable :=
  [s.freeBodyAccerlerationSensorsMap, s.positionSensorsMap,
   s.orientationSensorsMap, s.poseSensorsMap, s.magnetometersMap,
   s.virtualLinkKinSensorsMap, s.virtualJointKinSensorsMap]

/-- Decidable check that every sensor stored in a table has the given status. -/
def tableAllStatus (aStatus : SensorStatus) (t : SensorTable) : Bool :=
  t.all (fun kv => decide (kv.2.xsSensor.m_status = aStatus))

/-- Decidable check that every sensor in every one of the seven tables has
the given status. -/
def implAllStatus (aStatus : SensorStatus) (s : Impl) : Bool :=
  (tablesOf s).all (tableAllStatus aStatus)

/-- The shape of a table: its keys together with each entry's sensor name and
stored driver index — everything except the mutable statuses. -/
def tableShape (t : SensorTable) : List (String × String × Nat) :=
  t.map (fun kv => (kv.1, kv.2.xsSensor.m_name, kv.2.driverIndex))

/-- The shape of all seven tables of a device state. -/
def implShape (s : Impl) : List (List (String × String × Nat)) :=
  (tablesOf s).map tableShape

/-- The status mapping as worded by the claim (spec side of the refinement
for C8): only `Recording` yields `Ok`; `Calibrating` yields `Calibrating`;
`Unknown` yields `Unknown`; every other driver status yields `Error`. -/
def specStatusOf : DriverStatus → SensorStatus
  | DriverStatus.Recording => SensorStatus.Ok
  | DriverStatus.Calibrating => SensorStatus.Calibrating
  | DriverStatus.Unknown => SensorStatus.Unknown
  | DriverStatus.Disconnected => SensorStatus.Error
  | DriverStatus.Connected => SensorStatus.Error
  | DriverStatus.CalibratedAndReadyToRecord => SensorStatus.Error
  | DriverStatus.Scanning => SensorStatus.Error

/-! ### Concrete fixtures used to instantiate the claims -/

/-- A driver configuration value used by concrete device states. -/
def cfg0 : DriverConfiguration :=
  ⟨"deps", "suit", "", "", CalibrationQuality.POOR, -1, [], ⟨false, true, true⟩⟩

/-- A neutral driver behaviour: every control call succeeds, no labels, no
samples. -/
def baseBehaviour : DriverBehaviour where
  configureAndConnectResult := true
  suitSensorLabels := []
  suitLinkLabels := []
  suitJointLabels := []
  status := DriverStatus.Recording
  timeStamps := ⟨0⟩
  sensorDataSample := []
  linkDataSample := []
  jointDataSample := []
  setBodyDimensionsResult := true
  getBodyDimensionsResult := true
  getBodyDimensionResult := true
  calibrateResult := true
  abortCalibrationResult := true
  startAcquisitionResult := true
  stopAcquisitionResult := true

/-- Fixture for C1's counterexample: a driver whose `startAcquisition` fails. -/
def c1Behaviour : DriverBehaviour := { baseBehaviour with startAcquisitionResult := false }

/-- Fixture: one free-body-acceleration table entry. -/
def c1Entry : DriverToDeviceSensors := ⟨⟨"XsensSuit_fbAcc::Head", SensorStatus.Ok⟩, 0⟩

/-- Fixture device state for C1's counterexample. -/
def c1Impl : Impl :=
  { emptyImpl with
    driver := some ⟨cfg0, c1Behaviour⟩
    freeBodyAccerlerationSensorsMap := [("XsensSuit_fbAcc::Head", c1Entry)] }

/-- Fixture for C1's amended claim: every driver control call fails. -/
def c1FailBehaviour : DriverBehaviour :=
  { baseBehaviour with
    calibrateResult := false
    abortCalibrationResult := false
    startAcquisitionResult := false
    stopAcquisitionResult := false }

/-- Fixture device state with the all-failing driver. -/
def c1FailImpl : Impl :=
  { emptyImpl with
    driver := some ⟨cfg0, c1FailBehaviour⟩
    freeBodyAccerlerationSensorsMap := [("XsensSuit_fbAcc::Head", c1Entry)] }

/-- Fixture configuration for C2: just the two required keys. -/
def c2Config : Searchable :=
  ⟨some "deps", some "suit", none, none, none, none, none, none⟩

/-- Fixture behaviour for C2: one suit sensor labelled `Head`, with a
matching driver sample at index 0. -/
def c2Behaviour : DriverBehaviour :=
  { baseBehaviour with
    suitSensorLabels := ["Head"]
    sensorDataSample := [⟨"Head", (0, 0, 0, 0), (0, 0, 0), (0, 0, 0), (0, 0, 0)⟩] }

/-- Fixture configuration for C3: `default-calibration-type` present with
value `Npose`, `acquisition-scenario` and the other optional keys absent. -/
def c3Config : Searchable :=
  ⟨some "deps", some "suit", none, some "Npose", none, none, none, none⟩

/-- Fixture name of the single joint sensor for C4. -/
def c4Name : String := vjksPfx ++ "jL5S1"

/-- Fixture behaviour for C4: one joint sample whose name matches the
sensor's and whose kinematics fields are nonzero. -/
def c4Behaviour : DriverBehaviour :=
  { baseBehaviour with
    suitJointLabels := ["jL5S1"]
    jointDataSample := [⟨c4Name, (1, 2, 3), (4, 5, 6), (7, 8, 9)⟩] }

/-- Fixture device state for C4. -/
def c4Impl : Impl :=
  { emptyImpl with
    driver := some ⟨cfg0, c4Behaviour⟩
    virtualJointKinSensorsMap := [(c4Name, ⟨⟨c4Name, SensorStatus.Ok⟩, 0⟩)] }

/-- Fixture configuration for C5. -/
def c5Config : Searchable :=
  ⟨some "deps", some "suit", none, none, none, none, none, none⟩

/-- Fixture behaviour for C5: one suit sensor labelled `Pelvis`. -/
def c5Behaviour : DriverBehaviour :=
  { baseBehaviour with
    suitSensorLabels := ["Pelvis"]
    sensorDataSample := [⟨"Pelvis", (0, 0, 0, 0), (0, 0, 0), (0, 0, 0), (0, 0, 0)⟩] }

/-- Fixture configuration for C9's witness. -/
def c9Config : Searchable :=
  ⟨some "deps", some "suit", none, none, none, none, none, none⟩

/-- Fixture behaviour for C9's witness: two suit sensors, one link, one
joint. -/
def c9Behaviour : DriverBehaviour :=
  { baseBehaviour with
    suitSensorLabels := ["A", "B"]
    suitLinkLabels := ["L"]
    suitJointLabels := ["J"] }

/-- Fixture device state for C10's witness: a driver reporting system time
42. -/
def c10Impl : Impl :=
  { emptyImpl with
    driver := some ⟨cfg0, { baseBehaviour with timeStamps := ⟨42⟩ }⟩ }

/-- Fixture device state for C7's witness: driver present. -/
def c7Impl : Impl := { emptyImpl with driver := some ⟨cfg0, baseBehaviour⟩ }

/-! ### Helper lemmas about the association-list model -/

theorem string_append_cancel_left {p a b : String} (h : p ++ a = p ++ b) : a = b := by
  have hd := congrArg String.data h
  rw [String.data_append, String.data_append] at hd
  exact String.ext (List.append_cancel_left hd)

theorem mapAt_append {κ α : Type} [DecidableEq κ] (key : κ) (m₁ m₂ : List (κ × α)) :
    mapAt key (m₁ ++ m₂) =
      if (mapAt key m₁).isSome then mapAt key m₁ else mapAt key m₂ := by
  induction m₁ with
  | nil => simp [mapAt]
  | cons hd tl ih =>
    obtain ⟨k, v⟩ := hd
    by_cases hk : k = key <;> simp [mapAt, hk, ih]

theorem mapAt_emplace {κ α : Type} [DecidableEq κ] (key k : κ) (v : α)
    (m : List (κ × α)) :
    mapAt key (emplace m k v) =
      if key = k then some ((mapAt k m).getD v) else mapAt key m := by
  unfold emplace
  cases h : mapAt k m with
  | some w =>
    simp only [h, Option.isSome_some, if_true, Option.getD_some]
    by_cases hk : key = k
    · subst hk; simp [h]
    · simp [hk]
  | none =>
    simp only [h, Option.isSome_none, Bool.false_eq_true, if_false, Option.getD_none]
    rw [mapAt_append]
    by_cases hk : key = k
    · subst hk
      simp [h, mapAt]
    · cases hm : mapAt key m with
      | some w => simp [hm, hk]
      | none =>
        simp only [hm, Option.isSome_none, Bool.false_eq_true, if_false, mapAt]
        have hnk : ¬k = key := fun hke => hk (Eq.symm hke)
        simp [hk, hnk]

theorem mapAt_setTableStates (aStatus : SensorStatus) (key : String)
    (t : SensorTable) :
    mapAt key (setTableStates aStatus t) =
      (mapAt key t).map (setEntryStatus aStatus) := by
  induction t with
  | nil => simp [mapAt, setTableStates]
  | cons hd tl ih =>
    obtain ⟨k, v⟩ := hd
    by_cases hk : k = key <;> simp [mapAt, setTableStates, hk] <;>
      simpa [setTableStates] using ih

theorem tableAllStatus_setTableStates (aStatus : SensorStatus) (t : SensorTable) :
    tableAllStatus aStatus (setTableStates aStatus t) = true := by
  induction t with
  | nil => simp [tableAllStatus, setTableStates]
  | cons hd tl ih =>
    simpa [tableAllStatus, setTableStates, setEntryStatus, XsensSensor.setStatus]
      using ih

theorem implAllStatus_setAllSensorStates (aStatus : SensorStatus) (s : Impl) :
    implAllStatus aStatus (setAllSensorStates s aStatus) = true := by
  simp [implAllStatus, tablesOf, setAllSensorStates, tableAllStatus_setTableStates]

theorem tableShape_setTableStates (aStatus : SensorStatus) (t : SensorTable) :
    tableShape (setTableStates aStatus t) = tableShape t := by
  induction t with
  | nil => rfl
  | cons hd tl ih =>
    simpa [tableShape, setTableStates, setEntryStatus, XsensSensor.setStatus]
      using ih

theorem implShape_setAllSensorStates (s : Impl) (aStatus : SensorStatus) :
    implShape (setAllSensorStates s aStatus) = implShape s := by
  simp [implShape, tablesOf, setAllSensorStates, tableShape_setTableStates]

theorem mapAt_emplace_of_isSome {κ α : Type} [DecidableEq κ] {key : κ}
    {m : List (κ × α)} (k : κ) (v : α) (h : (mapAt key m).isSome) :
    mapAt key (emplace m k v) = mapAt key m := by
  rw [mapAt_emplace]
  by_cases hk : key = k
  · subst hk
    cases hm : mapAt key m with
    | some w => simp [hm]
    | none => rw [hm] at h; simp at h
  · simp [hk]

theorem mapAt_addSensorsFrom_of_isSome {key : String} (pfx : String)
    (ls : List String) (s : Nat) (m : SensorTable)
    (h : (mapAt key m).isSome) :
    mapAt key (addSensorsFrom pfx s ls m) = mapAt key m := by
  induction ls generalizing s m with
  | nil => rfl
  | cons l rest ih =>
    rw [addSensorsFrom]
    have h1 : mapAt key (emplace m (pfx ++ l) ⟨⟨pfx ++ l, SensorStatus.Unknown⟩, s⟩)
        = mapAt key m := mapAt_emplace_of_isSome _ _ h
    rw [ih (s + 1) _ (by rw [h1]; exact h), h1]

theorem mapAt_addSensorsFrom (pfx : String) (ls : List String) (s : Nat)
    (m : SensorTable) (hnd : ls.Nodup)
    (hm : ∀ l ∈ ls, mapAt (pfx ++ l) m = none)
    (i : Nat) (hi : i < ls.length) :
    mapAt (pfx ++ ls[i]) (addSensorsFrom pfx s ls m) =
      some ⟨⟨pfx ++ ls[i], SensorStatus.Unknown⟩, s + i⟩ := by
  induction ls generalizing s m i with
  | nil => simp at hi
  | cons l rest ih =>
    rw [addSensorsFrom]
    obtain ⟨hlr, hrest⟩ := List.nodup_cons.mp hnd
    have hl : mapAt (pfx ++ l) m = none := hm l (List.mem_cons_self l rest)
    have hemp : mapAt (pfx ++ l)
        (emplace m (pfx ++ l) ⟨⟨pfx ++ l, SensorStatus.Unknown⟩, s⟩)
        = some ⟨⟨pfx ++ l, SensorStatus.Unknown⟩, s⟩ := by
      rw [mapAt_emplace]; simp [hl]
    cases i with
    | zero =>
      simp only [List.getElem_cons_zero, Nat.add_zero]
      rw [mapAt_addSensorsFrom_of_isSome pfx rest (s + 1) _ (by rw [hemp]; rfl), hemp]
    | succ j =>
      have hj : j < rest.length := by simpa using hi
      simp only [List.getElem_cons_succ]
      have hm' : ∀ l' ∈ rest,
          mapAt (pfx ++ l')
            (emplace m (pfx ++ l) ⟨⟨pfx ++ l, SensorStatus.Unknown⟩, s⟩) = none := by
        intro l' hl'
        rw [mapAt_emplace]
        have hne : pfx ++ l' ≠ pfx ++ l := by
          intro hEq
          exact hlr (string_append_cancel_left hEq ▸ hl')
        simp [hne, hm l' (List.mem_cons_of_mem l hl')]
      rw [ih (s + 1) _ hrest hm' j hj]
      have : s + 1 + j = s + (j + 1) := by omega
      rw [this]

theorem name_eq_key_addSensorsFrom (pfx : String) (ls : List String) (s : Nat)
    (m : SensorTable)
    (hm : ∀ k e, mapAt k m = some e → e.xsSensor.m_name = k) :
    ∀ k e, mapAt k (addSensorsFrom pfx s ls m) = some e → e.xsSensor.m_name = k := by
  induction ls generalizing s m with
  | nil => exact hm
  | cons l rest ih =>
    rw [addSensorsFrom]
    apply ih
    intro k e hk
    rw [mapAt_emplace] at hk
    by_cases hkey : k = pfx ++ l
    · subst hkey
      cases h2 : mapAt (pfx ++ l) m with
      | some w =>
        rw [h2] at hk
        simp only [if_true, Option.getD_some, Option.some.injEq] at hk
        · exact hk ▸ hm _ _ h2
      | none =>
        rw [h2] at hk
        simp only [if_true, Option.getD_none, Option.some.injEq] at hk
        · rw [← hk]
    · rw [if_neg hkey] at hk
      exact hm _ _ hk

theorem implShape_calibrate (s : Impl) :
    implShape (calibrate s).2 = implShape s := by
  cases h : s.driver with
  | none => simp [calibrate, h]
  | some d =>
    by_cases hc : d.behaviour.calibrateResult <;>
      simp [calibrate, h, hc, implShape_setAllSensorStates]

theorem implShape_abortCalibration (s : Impl) :
    implShape (abortCalibration s).2 = implShape s := by
  cases h : s.driver with
  | none => simp [abortCalibration, h]
  | some d =>
    by_cases hc : d.behaviour.abortCalibrationResult <;>
      simp [abortCalibration, h, hc, implShape_setAllSensorStates]

theorem implShape_startAcquisition (s : Impl) :
    implShape (startAcquisition s).2 = implShape s := by
  cases h : s.driver with
  | none => simp [startAcquisition, h]
  | some d =>
    by_cases hc : d.behaviour.startAcquisitionResult <;>
      simp [startAcquisition, h, hc, implShape_setAllSensorStates]

theorem implShape_stopAcquisition (s : Impl) :
    implShape (stopAcquisition s).2 = implShape s := by
  cases h : s.driver with
  | none => simp [stopAcquisition, h]
  | some d =>
    by_cases hc : d.behaviour.stopAcquisitionResult <;>
      simp [stopAcquisition, h, hc, implShape_setAllSensorStates]

theorem openSuit_success (config : Searchable) (b : DriverBehaviour)
    (dc : DriverConfiguration) (hbc : buildDriverConfiguration config = some dc)
    (hcc : b.configureAndConnectResult = true) :
    openSuit config b =
      (true,
        { driver := some ⟨dc, b⟩
          freeBodyAccerlerationSensorsMap := addSensors fbasPfx b.suitSensorLabels []
          positionSensorsMap := addSensors posPfx b.suitSensorLabels []
          orientationSensorsMap := addSensors orientPfx b.suitSensorLabels []
          poseSensorsMap := addSensors posePfx b.suitSensorLabels []
          magnetometersMap := addSensors magPfx b.suitSensorLabels []
          virtualLinkKinSensorsMap := addSensors vlksPfx b.suitLinkLabels []
          virtualJointKinSensorsMap := addSensors vjksPfx b.suitJointLabels [] }) := by
  unfold openSuit
  rw [hbc]
  simp [hcc, emptyImpl]

theorem openSuit_fst_true (config : Searchable) (b : DriverBehaviour)
    (h : (openSuit config b).1 = true) :
    ∃ dc, buildDriverConfiguration config = some dc ∧
      b.configureAndConnectResult = true := by
  unfold openSuit at h
  cases hbc : buildDriverConfiguration config with
  | none => rw [hbc] at h; simp at h
  | some dc =>
    rw [hbc] at h
    by_cases hcc : b.configureAndConnectResult
    · exact ⟨dc, rfl, hcc⟩
    · simp [hcc] at h

/-! ### Claim theorems -/

/-- Claim C1, counterexample: with an initialized driver whose
`startAcquisition` call fails, `XsensSuit::startAcquisition` returns false but
leaves its sensor with status `WaitingForFirstRead`, which is neither `Error`
nor `Unknown` — refuting the claim that every driver-delegated control
operation marks all sensors `Error` or `Unknown` when the driver reports
failure. -/
theorem claimC1_counterexample :
    c1Impl.driver = some ⟨cfg0, c1Behaviour⟩ ∧
    c1Behaviour.startAcquisitionResult = false ∧
    (startAcquisition c1Impl).1 = false ∧
    mapAt "XsensSuit_fbAcc::Head"
        (startAcquisition c1Impl).2.freeBodyAccerlerationSensorsMap =
      some ⟨⟨"XsensSuit_fbAcc::Head", SensorStatus.WaitingForFirstRead⟩, 0⟩ ∧
    SensorStatus.WaitingForFirstRead ≠ SensorStatus.Error ∧
    SensorStatus.WaitingForFirstRead ≠ SensorStatus.Unknown := by
  refine ⟨rfl, rfl, rfl, rfl, ?_, ?_⟩ <;> decide

/-- Claim C1, amended: when the vendor driver reports failure, the operation
returns false and every sensor in every one of the seven tables is left with
the operation's failure status: `Error` for `calibrate` and
`abortCalibration`, `WaitingForFirstRead` for `startAcquisition`, and `Ok`
for `stopAcquisition`. -/
theorem claimC1_amended (s : Impl) (d : XSensMVNDriver) (hd : s.driver = some d) :
    (d.behaviour.calibrateResult = false →
      (calibrate s).1 = false ∧
      implAllStatus SensorStatus.Error (calibrate s).2 = true) ∧
    (d.behaviour.abortCalibrationResult = false →
      (abortCalibration s).1 = false ∧
      implAllStatus SensorStatus.Error (abortCalibration s).2 = true) ∧
    (d.behaviour.startAcquisitionResult = false →
      (startAcquisition s).1 = false ∧
      implAllStatus SensorStatus.WaitingForFirstRead (startAcquisition s).2 = true) ∧
    (d.behaviour.stopAcquisitionResult = false →
      (stopAcquisition s).1 = false ∧
      implAllStatus SensorStatus.Ok (stopAcquisition s).2 = true) := by
  refine ⟨fun hc => ?_, fun hc => ?_, fun hc => ?_, fun hc => ?_⟩ <;>
    simp [calibrate, abortCalibration, startAcquisition, stopAcquisition, hd, hc,
      implAllStatus_setAllSensorStates]

/-- Witness for the amended C1: a concrete device whose driver fails every
control call. -/
theorem claimC1_amended_witness :
    (calibrate c1FailImpl).1 = false ∧
    implAllStatus SensorStatus.Error (calibrate c1FailImpl).2 = true ∧
    (abortCalibration c1FailImpl).1 = false ∧
    implAllStatus SensorStatus.Error (abortCalibration c1FailImpl).2 = true ∧
    (startAcquisition c1FailImpl).1 = false ∧
    implAllStatus SensorStatus.WaitingForFirstRead (startAcquisition c1FailImpl).2 = true ∧
    (stopAcquisition c1FailImpl).1 = false ∧
    implAllStatus SensorStatus.Ok (stopAcquisition c1FailImpl).2 = true := by
  have h := claimC1_amended c1FailImpl ⟨cfg0, c1FailBehaviour⟩ rfl
  exact ⟨(h.1 rfl).1, (h.1 rfl).2, (h.2.1 rfl).1, (h.2.1 rfl).2,
    (h.2.2.1 rfl).1, (h.2.2.1 rfl).2, (h.2.2.2 rfl).1, (h.2.2.2 rfl).2⟩

/-- Claim C3, code bug at line 589 of the source: with
`default-calibration-type` present (value `Npose`) and `acquisition-scenario`
absent, the built driver configuration carries `defaultCalibrationType = ""`
(the key's value is lost) and `acquisitionScenario = "Npose"` (another key's
field is overwritten).  The remaining optional keys do follow the documented
defaults (`POOR`, `-1`). -/
theorem claimC3_bug :
    (buildDriverConfiguration c3Config).map DriverConfiguration.defaultCalibrationType
      = some "" ∧
    (buildDriverConfiguration c3Config).map DriverConfiguration.acquisitionScenario
      = some "Npose" ∧
    (buildDriverConfiguration c3Config).map DriverConfiguration.minCalibrationQualityRequired
      = some CalibrationQuality.POOR ∧
    (buildDriverConfiguration c3Config).map DriverConfiguration.scanTimeout
      = some (-1) ∧
    ("" : String) ≠ "Npose" :=
  ⟨rfl, rfl, rfl, rfl, by decide⟩

/-- Claim C4, code bug: the three joint-kinematics accessors take their
`Vector3` output parameter by value (source lines 450, 468, 486), so on a
name match they return true but the caller's argument keeps its old value
instead of receiving the sample's angles / velocities / accelerations (which
only reach the callee's local copy). -/
theorem claimC4_bug :
    getJointAnglesAsRPY c4Impl c4Name (0, 0, 0) = some ⟨true, (0, 0, 0), (1, 2, 3)⟩ ∧
    getJointVelocities c4Impl c4Name (0, 0, 0) = some ⟨true, (0, 0, 0), (4, 5, 6)⟩ ∧
    getJointAccelerations c4Impl c4Name (0, 0, 0) = some ⟨true, (0, 0, 0), (7, 8, 9)⟩ ∧
    ((0, 0, 0) : Vector3) ≠ (1, 2, 3) :=
  ⟨rfl, rfl, rfl, by decide⟩

/-- Claim C6: no operation callable after open changes any table's keys,
sensor names, or stored driver indices — `setAllSensorStates` and the four
driver-delegated control operations preserve the shape (key, sensor name,
driver index) of all seven tables; the data accessors are `const` and are
modelled as pure functions of the state. -/
theorem claimC6 (s : Impl) (aStatus : SensorStatus) :
    implShape (setAllSensorStates s aStatus) = implShape s ∧
    implShape (calibrate s).2 = implShape s ∧
    implShape (abortCalibration s).2 = implShape s ∧
    implShape (startAcquisition s).2 = implShape s ∧
    implShape (stopAcquisition s).2 = implShape s :=
  ⟨implShape_setAllSensorStates s aStatus, implShape_calibrate s,
   implShape_abortCalibration s, implShape_startAcquisition s,
   implShape_stopAcquisition s⟩

/-- Claim C7: every driver-delegated control operation returns false when the
driver is not initialized and otherwise returns exactly the vendor driver's
boolean result. -/
theorem claimC7 (s : Impl) (dimensions : List (String × Int)) (bodyName : String) :
    setBodyDimensions s dimensions =
      (match s.driver with
       | none => false
       | some d => d.behaviour.setBodyDimensionsResult) ∧
    getBodyDimensions s =
      (match s.driver with
       | none => false
       | some d => d.behaviour.getBodyDimensionsResult) ∧
    getBodyDimension s bodyName =
      (match s.driver with
       | none => false
       | some d => d.behaviour.getBodyDimensionResult) ∧
    (calibrate s).1 =
      (match s.driver with
       | none => false
       | some d => d.behaviour.calibrateResult) ∧
    (abortCalibration s).1 =
      (match s.driver with
       | none => false
       | some d => d.behaviour.abortCalibrationResult) ∧
    (startAcquisition s).1 =
      (match s.driver with
       | none => false
       | some d => d.behaviour.startAcquisitionResult) ∧
    (stopAcquisition s).1 =
      (match s.driver with
       | none => false
       | some d => d.behaviour.stopAcquisitionResult) := by
  refine ⟨?_, ?_, ?_, ?_, ?_, ?_, ?_⟩ <;>
    cases h : s.driver <;>
      simp [setBodyDimensions, getBodyDimensions, getBodyDimension, calibrate,
        abortCalibration, startAcquisition, stopAcquisition, h, apply_ite Prod.fst]

/-- Claim C8: `getStatus` maps the driver status through the fixed total
mapping `driverToSensorStatusMap`, which agrees everywhere with the mapping
worded by the claim (`specStatusOf`), and only `Recording` yields `Ok`. -/
theorem claimC8 (s : Impl) :
    (∀ ds, mapAt ds driverToSensorStatusMap = some (specStatusOf ds)) ∧
    (∀ ds, specStatusOf ds = SensorStatus.Ok ↔ ds = DriverStatus.Recording) ∧
    getStatus s =
      (match s.driver with
       | none => none
       | some d => some (specStatusOf d.behaviour.status)) := by
  refine ⟨fun ds => by cases ds <;> rfl, fun ds => by cases ds <;> simp [specStatusOf], ?_⟩
  cases h : s.driver with
  | none => simp [getStatus, h]
  | some d =>
    simp only [getStatus, h]
    cases d.behaviour.status <;> rfl

/-- Claim C10: with an initialized driver, `getLastInputStamp` and
`getTimeStamp` both carry the driver's current system time as the time value
and a count / sequence component equal to zero. -/
theorem claimC10 (s : Impl) (d : XSensMVNDriver) (h : s.driver = some d) :
    (getLastInputStamp s).map Stamp.count = some 0 ∧
    (getLastInputStamp s).map Stamp.time = some d.behaviour.timeStamps.systemTime ∧
    (getTimeStamp s).map TimeStamp.sequenceNumber = some 0 ∧
    (getTimeStamp s).map TimeStamp.time = some d.behaviour.timeStamps.systemTime := by
  simp [getLastInputStamp, getTimeStamp, h]

/-- Witness for C10 at a concrete device whose driver reports system time
42. -/
theorem claimC10_witness :
    (getLastInputStamp c10Impl).map Stamp.count = some 0 ∧
    (getLastInputStamp c10Impl).map Stamp.time = some 42 ∧
    (getTimeStamp c10Impl).map TimeStamp.sequenceNumber = some 0 ∧
    (getTimeStamp c10Impl).map TimeStamp.time = some 42 :=
  claimC10 c10Impl ⟨cfg0, { baseBehaviour with timeStamps := ⟨42⟩ }⟩ rfl

/-- Claim C2, code bug at source lines 265-266: after a successful open, the
pose sensor created for the suit label `Head` is stored in the pose table,
but `getPose` looks the sensor's own name up in `orientationSensorsMap` —
whose keys carry the orientation marker, not the pose marker — so the
`std::map::at` lookup throws (modelled as `none`) instead of copying the
sample's orientation and position out. -/
theorem claimC2_bug :
    (openSuit c2Config c2Behaviour).1 = true ∧
    mapAt (posePfx ++ "Head") (openSuit c2Config c2Behaviour).2.poseSensorsMap =
      some ⟨⟨posePfx ++ "Head", SensorStatus.Unknown⟩, 0⟩ ∧
    mapAt (posePfx ++ "Head") (openSuit c2Config c2Behaviour).2.orientationSensorsMap =
      none ∧
    getPose (openSuit c2Config c2Behaviour).2 (posePfx ++ "Head") (0, 0, 0, 0) (0, 0, 0) =
      none :=
  ⟨rfl, rfl, rfl, rfl⟩

/-- Claim C5, code bug: the claimed universal accessor pattern (return a
boolean, true exactly on a driver name match) fails for `XsensPoseSensor`:
on a validly opened device, `getPose` on the pose sensor for label `Pelvis`
completes without returning any boolean at all, because its index lookup
consults the orientation table (source lines 265-266) and throws. -/
theorem claimC5_bug :
    (openSuit c5Config c5Behaviour).1 = true ∧
    mapAt (posePfx ++ "Pelvis") (openSuit c5Config c5Behaviour).2.poseSensorsMap =
      some ⟨⟨posePfx ++ "Pelvis", SensorStatus.Unknown⟩, 0⟩ ∧
    ¬∃ ret out,
      getPose (openSuit c5Config c5Behaviour).2 (posePfx ++ "Pelvis")
          (0, 0, 0, 0) (0, 0, 0) = some (ret, out) := by
  refine ⟨rfl, rfl, ?_⟩
  rintro ⟨ret, out, hout⟩
  rw [show getPose (openSuit c5Config c5Behaviour).2 (posePfx ++ "Pelvis")
      (0, 0, 0, 0) (0, 0, 0) = none from rfl] at hout
  exact Option.noConfusion hout

/-- Claim C9: after a successful open (with duplicate-free driver label
lists), every table entry's sensor object is named like its key, each of the
five sensor-derived tables maps its own marker plus the suit label at
position `i` to driver index `i`, and the link and joint tables do likewise
over the link and joint label lists. -/
theorem claimC9 (config : Searchable) (b : DriverBehaviour)
    (hres : (openSuit config b).1 = true)
    (hs : b.suitSensorLabels.Nodup) (hl : b.suitLinkLabels.Nodup)
    (hj : b.suitJointLabels.Nodup) :
    (∀ t ∈ tablesOf (openSuit config b).2, ∀ k e, mapAt k t = some e →
        e.xsSensor.m_name = k) ∧
    (∀ i (hi : i < b.suitSensorLabels.length),
        mapAt (fbasPfx ++ b.suitSensorLabels[i])
            (openSuit config b).2.freeBodyAccerlerationSensorsMap =
          some ⟨⟨fbasPfx ++ b.suitSensorLabels[i], SensorStatus.Unknown⟩, i⟩ ∧
        mapAt (posPfx ++ b.suitSensorLabels[i])
            (openSuit config b).2.positionSensorsMap =
          some ⟨⟨posPfx ++ b.suitSensorLabels[i], SensorStatus.Unknown⟩, i⟩ ∧
        mapAt (orientPfx ++ b.suitSensorLabels[i])
            (openSuit config b).2.orientationSensorsMap =
          some ⟨⟨orientPfx ++ b.suitSensorLabels[i], SensorStatus.Unknown⟩, i⟩ ∧
        mapAt (posePfx ++ b.suitSensorLabels[i])
            (openSuit config b).2.poseSensorsMap =
          some ⟨⟨posePfx ++ b.suitSensorLabels[i], SensorStatus.Unknown⟩, i⟩ ∧
        mapAt (magPfx ++ b.suitSensorLabels[i])
            (openSuit config b).2.magnetometersMap =
          some ⟨⟨magPfx ++ b.suitSensorLabels[i], SensorStatus.Unknown⟩, i⟩) ∧
    (∀ i (hi : i < b.suitLinkLabels.length),
        mapAt (vlksPfx ++ b.suitLinkLabels[i])
            (openSuit config b).2.virtualLinkKinSensorsMap =
          some ⟨⟨vlksPfx ++ b.suitLinkLabels[i], SensorStatus.Unknown⟩, i⟩) ∧
    (∀ i (hi : i < b.suitJointLabels.length),
        mapAt (vjksPfx ++ b.suitJointLabels[i])
            (openSuit config b).2.virtualJointKinSensorsMap =
          some ⟨⟨vjksPfx ++ b.suitJointLabels[i], SensorStatus.Unknown⟩, i⟩) := by
  obtain ⟨dc, hbc, hcc⟩ := openSuit_fst_true config b hres
  rw [openSuit_success config b dc hbc hcc]
  have hempty : ∀ k (e : DriverToDeviceSensors),
      mapAt k ([] : SensorTable) = some e → e.xsSensor.m_name = k := by
    intro k e h
    simp [mapAt] at h
  have hnone : ∀ (pfx : String) (ls : List String), ∀ l ∈ ls,
      mapAt (pfx ++ l) ([] : SensorTable) = none := by
    intro pfx ls l _
    rfl
  refine ⟨?_, ?_, ?_, ?_⟩
  · intro t ht
    simp only [tablesOf, List.mem_cons, List.not_mem_nil, or_false] at ht
    rcases ht with h | h | h | h | h | h | h <;>
      (subst h; exact name_eq_key_addSensorsFrom _ _ 0 [] hempty)
  · intro i hi
    refine ⟨?_, ?_, ?_, ?_, ?_⟩ <;>
      simpa [addSensors] using
        mapAt_addSensorsFrom _ b.suitSensorLabels 0 [] hs (hnone _ _) i hi
  · intro i hi
    simpa [addSensors] using
      mapAt_addSensorsFrom _ b.suitLinkLabels 0 [] hl (hnone _ _) i hi
  · intro i hi
    simpa [addSensors] using
      mapAt_addSensorsFrom _ b.suitJointLabels 0 [] hj (hnone _ _) i hi

/-- Witness for C9: a concrete open with suit labels `A`, `B`, link label
`L`, joint label `J`. -/
theorem claimC9_witness :
    mapAt (fbasPfx ++ "B") (openSuit c9Config c9Behaviour).2.freeBodyAccerlerationSensorsMap =
      some ⟨⟨fbasPfx ++ "B", SensorStatus.Unknown⟩, 1⟩ ∧
    mapAt (posePfx ++ "A") (openSuit c9Config c9Behaviour).2.poseSensorsMap =
      some ⟨⟨posePfx ++ "A", SensorStatus.Unknown⟩, 0⟩ ∧
    mapAt (vlksPfx ++ "L") (openSuit c9Config c9Behaviour).2.virtualLinkKinSensorsMap =
      some ⟨⟨vlksPfx ++ "L", SensorStatus.Unknown⟩, 0⟩ ∧
    mapAt (vjksPfx ++ "J") (openSuit c9Config c9Behaviour).2.virtualJointKinSensorsMap =
      some ⟨⟨vjksPfx ++ "J", SensorStatus.Unknown⟩, 0⟩ := by
  have h := claimC9 c9Config c9Behaviour rfl (by decide) (by decide) (by decide)
  exact ⟨(h.2.1 1 (by decide)).1, (h.2.1 0 (by decide)).2.2.2.1,
    h.2.2.1 0 (by decide), h.2.2.2 0 (by decide)⟩

end XsensSuit
